import Mathlib

/-!
Shallow embedding of `buildscripts/resmokelib/powercycle/powercycle.py`.

The powercycle harness runs as a controller plus a remote agent (the same
script re-invoked with `--remoteOperation`).  The definitions below embed
the pure control logic of the script: process killing with pid-reuse
detection, the POSIX and Windows service controllers, the backup-path
computation, the agent-side operation loop of `remote_handler`, the
boot-time comparison after a crash, the exit-file bookkeeping, and the
per-iteration step sequence of `main`.
-/

namespace Powercycle

/-! ### kill_process (powercycle.py lines 212-238)

A `psutil.Process` handle caches the creation time captured at spawn time
(`start_cmd`, lines 302-328 uses `psutil.Popen` precisely for this).
`parent.children()` implicitly calls `parent.is_running()`, which raises
`psutil.NoSuchProcess` when the creation time of the current occupant of
`parent.pid` differs from the cached one (pid reuse) or the pid is gone.
`proc.kill()` behaves the same way.  We model the OS as `ProcWorld`:
`liveCreateTime pid` is the creation time of the process currently holding
`pid` (or `none`), `childrenOf pid` the snapshot returned by `children()`,
and `aliveAfterWait procs` the survivors reported by `psutil.wait_procs`
after the 30-second wait. -/

structure ProcHandle where
  pid : Nat
  createTime : Nat
deriving DecidableEq, Repr

structure ProcWorld where
  liveCreateTime : Nat → Option Nat
  childrenOf : Nat → List ProcHandle
  aliveAfterWait : List ProcHandle → List ProcHandle

/-- A handle matches the live process: same pid occupant, same creation time. -/
def procMatches (w : ProcWorld) (p : ProcHandle) : Bool :=
  w.liveCreateTime p.pid == some p.createTime

structure KillProcessResult where
  killed : List ProcHandle
  warned : List ProcHandle
  stillAlive : List ProcHandle
  ret : Nat
deriving Repr

/-- `kill_process(parent, kill_children=True)` (lines 212-238).
If the `children()` call raises `NoSuchProcess` (stale handle), the
function logs a warning and returns 0.  Otherwise every proc in the
snapshot plus the parent is killed (a stale entry only logs a warning),
survivors of the bounded wait are logged as errors, and 0 is returned. -/
def kill_process (w : ProcWorld) (parent : ProcHandle)
    (kill_children : Bool := true) : KillProcessResult :=
  if kill_children && !procMatches w parent then
    { killed := [], warned := [parent], stillAlive := [], ret := 0 }
  else
    let procs := (if kill_children then w.childrenOf parent.pid else []) ++ [parent]
    { killed := procs.filter (fun p => procMatches w p),
      warned := procs.filter (fun p => !procMatches w p),
      stillAlive := w.aliveAfterWait procs,
      ret := 0 }

/-! ### PosixService.status (lines 955-975) -/

/-- Result of `os.stat(lock_file).st_size`: either a size or an `OSError`
(the file vanished between the existence check and the stat). -/
inductive LockStat where
  | size (n : Nat)
  | osError
deriving DecidableEq, Repr

structure PosixFs where
  lockExists : Bool
  lockStat : LockStat
deriving Repr

structure StatusResult where
  status : String
  pids : List Nat
deriving DecidableEq, Repr

/-- `PosixService.status()` (lines 955-975): empty tracked pid list means
`stopped`; an absent or zero-length `mongod.lock` clears the pids and
means `stopped`; an `OSError` from `os.stat` is treated optimistically as
`running` (pids kept); otherwise `running`. -/
def posixServiceStatus (fs : PosixFs) (pids : List Nat) : StatusResult :=
  if pids = [] then ⟨"stopped", pids⟩
  else if !fs.lockExists then ⟨"stopped", []⟩
  else
    match fs.lockStat with
    | .size 0 => ⟨"stopped", []⟩
    | .size (_ + 1) => ⟨"running", pids⟩
    | .osError => ⟨"running", pids⟩

/-! ### Boot-time comparison after the crash (main, lines 2027-2036)

`get_boot_datetime` (lines 584-594) returns the parsed boot time, or -1
when `last booted ..., up` does not occur in the uptime output; we model
its result as `Option Nat` (`none` standing for -1).  After reconnecting,
`main` compares the boot time parsed from the post-crash `noop` dispatch
with the one recorded after the pre-crash `start_mongod` (line 1958): if
either is -1 it only warns; otherwise, when the crash method is not
`kill` and the new boot time is not strictly newer, it raises. -/
def bootTimeCheckRaises (crash_method : String)
    (boot_after_recovery boot_after_crash : Option Nat) : Bool :=
  match boot_after_crash, boot_after_recovery with
  | none, _ => false
  | some _, none => false
  | some c, some r => crash_method != "kill" && decide (c ≤ r)

/-! ### WindowsService.stop (lines 858-887)

`stop(timeout)` first clears the tracked pids, fails with code 1 when the
preliminary `status()` is not one of the known service states, then calls
`win32serviceutil.StopService` and polls `status()` every 3 seconds while
the state is `stop pending`.  Inside the loop the deadline check assigns
`ret = 1` and breaks, but the lines after the loop assign `ret = 0`
unconditionally, so both loop exits yield 0; the timeout assignment is a
dead store.  A `pywintypes.error` from `StopService` yields its
`winerror`, except that `ERROR_BROKEN_PIPE` (109) is mapped to success.

We model the successive `status()` results as `statusAt : Nat → String`
(`statusAt k` is the k-th query after `StopService`) and the elapsed time
at the k-th deadline check as `3 * k` (one `time.sleep(3)` per loop
iteration).  `stopPoll` returns `none` only when the fuel is exhausted;
`windowsServiceStop` supplies enough fuel to cover the whole deadline. -/

def stopPoll (statusAt : Nat → String) (timeout : Nat) : Nat → Nat → Option Nat
  | 0, _ => none
  | fuel + 1, k =>
    if statusAt k ≠ "stop pending" then some 0
    else if timeout ≤ 3 * k then some 0
    else stopPoll statusAt timeout fuel (k + 1)

/-- Windows error code `ERROR_BROKEN_PIPE`. -/
def errorBrokenPipe : Nat := 109

/-- `WindowsService.stop(timeout)` on the non-exception path and on the
`pywintypes.error` path (`stopErr` is the `winerror` raised by
`StopService`, if any). -/
def windowsServiceStop (statusKnown : Bool) (stopErr : Option Nat)
    (statusAt : Nat → String) (timeout : Nat) : Option Nat :=
  if !statusKnown then some 1
  else
    match stopErr with
    | some e => some (if e = errorBrokenPipe then 0 else e)
    | none => stopPoll statusAt timeout (timeout / 3 + 2) 0

/-! ### get_backup_path (lines 1328-1330) and the rsync_data rename
(lines 1269-1278)

`get_backup_path(path, loop_num)` is
`re.sub("-{loop_num-1}$", "-{loop_num}", path)`: an anchored literal
substitution (loop numbers are digit strings, so the pattern is literal
and matches at most once).  We embed it on the character list of the
path. -/

def subAnchoredSuffix (old new path : List Char) : List Char :=
  if old <:+ path then path.take (path.length - old.length) ++ new else path

def get_backup_path (path : String) (loop_num : Nat) : String :=
  ⟨subAnchoredSuffix ("-" ++ toString (loop_num - 1)).data
    ("-" ++ toString loop_num).data path.data⟩

/-- The rename performed by the `rsync_data` operation: after `rsync`
returns `rsyncRet`, the copy is renamed from `rsync_dir` to
`new_rsync_dir` only when the rsync succeeded and the two paths differ
(lines 1275-1278).  The result lists the renames performed. -/
def rsyncDataRenames (rsyncRet : Nat) (rsync_dir new_rsync_dir : String) :
    List (String × String) :=
  if rsyncRet = 0 ∧ rsync_dir ≠ new_rsync_dir then [(rsync_dir, new_rsync_dir)]
  else []

/-! ### remote_handler (lines 1146-1325)

The agent iterates over `options.remote_operations` in the order given on
the command line; each branch computes a return code `ret` (several
branches also return early on failure), and the loop footer
`if ret: return ret` aborts the batch at the first failing operation.  An
unrecognized operation name sets `ret = 1`; `noop` always succeeds; the
outcome of every other supported operation depends on the host, which we
abstract as an environment `env : String → Nat` giving the code each
operation's body computes.  An empty operation list raises `ValueError`
(lines 1155-1156). -/

def knownRemoteOperations : List String :=
  ["noop", "crash_server", "kill_mongod", "install_mongod", "start_mongod",
   "stop_mongod", "shutdown_mongod", "rsync_data", "seed_docs", "set_fcv",
   "check_disk"]

def opResult (env : String → Nat) (op : String) : Nat :=
  if op = "noop" then 0
  else if op ∈ knownRemoteOperations then env op
  else 1

/-- The agent's operation loop: returns the list of operations whose
bodies were executed and the final return code. -/
def remoteHandlerRun (env : String → Nat) : List String → List String × Nat
  | [] => ([], 0)
  | op :: rest =>
    let r := opResult env op
    if r ≠ 0 then ([op], r)
    else
      let t := remoteHandlerRun env rest
      (op :: t.1, t.2)

def remote_handler (env : String → Nat) (ops : List String) :
    Except String (List String × Nat) :=
  if ops = [] then Except.error "No remote operation specified."
  else Except.ok (remoteHandlerRun env ops)

/-! ### Exit bookkeeping (lines 79-86, 1091-1102)

`EXIT_YML` starts as `{"exit_code": 0}`.  `local_exit(code)` records the
code and exits; `ssh_failure_exit(code, output)` additionally records the
transport-failure output under the `ec2_ssh_failure` key before exiting.
`verify_remote_access` (lines 1097-1102) calls `ssh_failure_exit` with
the code and output of the initial reachability probe whenever
`access_established()` is false. -/

structure ExitYml where
  exit_code : Int
  ec2_ssh_failure : Option String
deriving DecidableEq, Repr

def initExitYml : ExitYml := ⟨0, none⟩

def local_exit (code : Int) (y : ExitYml) : ExitYml :=
  { y with exit_code := code }

def ssh_failure_exit (code : Int) (output : String) (y : ExitYml) : ExitYml :=
  local_exit code { y with ec2_ssh_failure := some output }

/-- The remote channel's reachability probe: whether it ever succeeded,
and the code/output of the initial access attempts. -/
structure AccessProbe where
  established : Bool
  info_code : Int
  info_output : String

/-- `verify_remote_access(remote_op)`: `some finalState` when the probe
failed and the run exits through `ssh_failure_exit`, `none` when access
is established and execution continues. -/
def verify_remote_access (probe : AccessProbe) (y : ExitYml) : Option ExitYml :=
  if probe.established then none
  else some (ssh_failure_exit probe.info_code probe.info_output y)

/-! ### The start batch on the secret port (main, lines 1704, 1743-1745,
1888-1895)

`set_fcv_cmd` is `"set_fcv"` only when `task_config.fcv` is configured
(line 1704), `seed_docs = "seed_docs"` and `rsync_cmd = "rsync_data"` are
fixed.  The batch dispatched at the top of each loop is
`rsync_data start_mongod {set_fcv_cmd if loop_num == 1 else ''}
{seed_docs if loop_num == 1 else ''}`; empty substitutions disappear when
the agent's command line is split into operations. -/

def setFcvCmd (fcv : Option String) : String :=
  if fcv.isSome then "set_fcv" else ""

def startSecretBatch (loop_num : Nat) (fcv : Option String) : List String :=
  ["rsync_data", "start_mongod",
   if loop_num = 1 then setFcvCmd fcv else "",
   if loop_num = 1 then "seed_docs" else ""].filter (fun s => s ≠ "")

/-! ### The iteration step sequence of main (lines 1869-2043)

One iteration of the main loop, on the path where every step succeeds
(any failing step calls `local_exit` and no further iteration runs).  In
code order: dispatch the start batch on the secret port (1888-1896), open
the ssh tunnel (1903), validate the canary locally when `loop_num > 1`
(1876-1877, 1907-1915), validate collections (1923), shut down mongod on
the secret port (1930-1932), dispatch rsync + start on the standard port
(1945-1951), start the CRUD/FSM clients (1962-1983), insert a fresh
canary document right before the crash (1988-1999), crash (1998), kill
clients and the tunnel (2017-2020), reconnect (2023-2026), and run the
no-op boot-time check (2027-2036).  The canary document is
`{"x": time.time()}`; we model the timestamp taken in iteration `n` as
`ts n`.  The loop variable `canary_doc` starts as `""` (line 1790,
modeled `none`) and after iteration `n` holds a deep copy of the document
inserted in iteration `n` (lines 1989-1990, 2038). -/

inductive Step where
  | startSecret (ops : List String)
  | setupTunnel
  | validateCanary (doc : Option Nat)
  | validateCollections
  | shutdownSecret
  | startStandard
  | startClients
  | insertCanary (doc : Nat)
  | crash
  | killClients
  | reconnect
  | noopBootCheck
deriving DecidableEq, Repr

def iterationSteps (fcv : Option String) (loop_num : Nat)
    (canary_doc : Option Nat) (new_canary : Nat) : List Step :=
  [Step.startSecret (startSecretBatch loop_num fcv), Step.setupTunnel]
  ++ (if 1 < loop_num then [Step.validateCanary canary_doc] else [])
  ++ [Step.validateCollections, Step.shutdownSecret, Step.startStandard,
      Step.startClients, Step.insertCanary new_canary, Step.crash,
      Step.killClients, Step.reconnect, Step.noopBootCheck]

/-- The value of the loop variable `canary_doc` after iteration `n`
(`n = 0` is the state before loop 1). -/
def canaryVarAfter (ts : Nat → Nat) : Nat → Option Nat
  | 0 => none
  | n + 1 => some (ts (n + 1))

/-- The steps performed by iteration `n ≥ 1` on the all-steps-succeed
path. -/
def iterationTrace (fcv : Option String) (ts : Nat → Nat) (n : Nat) :
    List Step :=
  iterationSteps fcv n (canaryVarAfter ts (n - 1)) (ts n)

end Powercycle

namespace Powercycle

/-! ## Theorems -/

/-- C10: `kill_process` returns 0 for every input: stale handles, failed
child kills and survivors of the bounded wait are only logged, never
turned into a failing return code. -/
theorem kill_process_always_zero (w : ProcWorld) (parent : ProcHandle)
    (kill_children : Bool) :
    (kill_process w parent kill_children).ret = 0 := by
  unfold kill_process
  split <;> rfl

/-- C8: a handle whose recorded creation time no longer matches the
process currently holding its pid (pid reuse, or the pid is gone) is
never killed by `kill_process`: nothing is killed, a warning is logged,
and the result code is 0. -/
theorem kill_process_pid_reuse_noop (w : ProcWorld) (parent : ProcHandle)
    (kill_children : Bool) (h : procMatches w parent = false) :
    (kill_process w parent kill_children).killed.filter
        (fun p => p.pid = parent.pid && p.createTime = parent.createTime) = [] ∧
    (kill_process w parent kill_children).warned ≠ [] ∧
    (kill_process w parent kill_children).ret = 0 := by
  unfold kill_process
  cases kill_children with
  | true =>
    simp [h]
  | false =>
    simp [h]

/-- Concrete witness for C8: pid 5 is now occupied by a process created at
time 100, while the handle recorded creation time 42. -/
theorem kill_process_pid_reuse_noop_witness :
    (kill_process ⟨fun p => if p = 5 then some 100 else none, fun _ => [], fun _ => []⟩
        ⟨5, 42⟩ true).killed.filter
        (fun p => p.pid = 5 && p.createTime = 42) = [] ∧
    (kill_process ⟨fun p => if p = 5 then some 100 else none, fun _ => [], fun _ => []⟩
        ⟨5, 42⟩ true).warned ≠ [] ∧
    (kill_process ⟨fun p => if p = 5 then some 100 else none, fun _ => [], fun _ => []⟩
        ⟨5, 42⟩ true).ret = 0 :=
  kill_process_pid_reuse_noop
    ⟨fun p => if p = 5 then some 100 else none, fun _ => [], fun _ => []⟩
    ⟨5, 42⟩ true (by decide)

/-- C4: `PosixService.status()` returns `stopped` on an empty tracked pid
list; with pids tracked, an absent or zero-size lock file clears the pids
and returns `stopped`; an `OSError` while stat-ing returns `running`
without clearing; a present, non-empty lock file returns `running`. -/
theorem posix_service_status_spec (fs : PosixFs) (pids : List Nat) :
    (pids = [] → posixServiceStatus fs pids = ⟨"stopped", pids⟩) ∧
    (pids ≠ [] → fs.lockExists = false → posixServiceStatus fs pids = ⟨"stopped", []⟩) ∧
    (pids ≠ [] → fs.lockExists = true → fs.lockStat = .size 0 →
      posixServiceStatus fs pids = ⟨"stopped", []⟩) ∧
    (pids ≠ [] → fs.lockExists = true → fs.lockStat = .osError →
      posixServiceStatus fs pids = ⟨"running", pids⟩) ∧
    (∀ k, pids ≠ [] → fs.lockExists = true → fs.lockStat = .size (k + 1) →
      posixServiceStatus fs pids = ⟨"running", pids⟩) := by
  refine ⟨fun h => by simp [posixServiceStatus, h], ?_, ?_, ?_, ?_⟩
  · intro h hl
    simp [posixServiceStatus, h, hl]
  · intro h hl hs
    simp [posixServiceStatus, h, hl, hs]
  · intro h hl hs
    simp [posixServiceStatus, h, hl, hs]
  · intro k h hl hs
    simp [posixServiceStatus, h, hl, hs]

/-- Concrete witness for C4, one instance per branch: empty pid list;
absent lock file; zero-size lock file; `OSError` race; live lock file. -/
theorem posix_service_status_spec_witness :
    posixServiceStatus ⟨true, .size 7⟩ [] = ⟨"stopped", []⟩ ∧
    posixServiceStatus ⟨false, .size 7⟩ [3] = ⟨"stopped", []⟩ ∧
    posixServiceStatus ⟨true, .size 0⟩ [3] = ⟨"stopped", []⟩ ∧
    posixServiceStatus ⟨true, .osError⟩ [3] = ⟨"running", [3]⟩ ∧
    posixServiceStatus ⟨true, .size 7⟩ [3] = ⟨"running", [3]⟩ :=
  ⟨(posix_service_status_spec ⟨true, .size 7⟩ []).1 rfl,
   (posix_service_status_spec ⟨false, .size 7⟩ [3]).2.1 (by decide) rfl,
   (posix_service_status_spec ⟨true, .size 0⟩ [3]).2.2.1 (by decide) rfl rfl,
   (posix_service_status_spec ⟨true, .osError⟩ [3]).2.2.2.1 (by decide) rfl rfl,
   (posix_service_status_spec ⟨true, .size 7⟩ [3]).2.2.2.2 6 (by decide) rfl rfl⟩

/-- C3: after reconnecting, a `kill` crash never triggers the boot-time
check; for an `internal` crash with both boot times parsed, the run
raises exactly when the post-crash boot time is not strictly newer than
the one recorded after the pre-crash recovery start. -/
theorem boot_time_check_spec :
    (∀ r c : Option Nat, bootTimeCheckRaises "kill" r c = false) ∧
    (∀ rv cv : Nat,
      bootTimeCheckRaises "internal" (some rv) (some cv) = decide (cv ≤ rv)) := by
  constructor
  · intro r c
    cases c <;> cases r <;> simp [bootTimeCheckRaises]
  · intro rv cv
    simp [bootTimeCheckRaises]

/-- Supporting lemma: the `stop()` polling loop can only report success;
the `ret = 1` assigned at the deadline break is overwritten by the
unconditional `ret = 0` after the loop. -/
theorem stopPoll_never_fails (statusAt : Nat → String) (timeout : Nat) :
    ∀ fuel k, stopPoll statusAt timeout fuel k = none ∨
      stopPoll statusAt timeout fuel k = some 0 := by
  intro fuel
  induction fuel with
  | zero => intro k; exact Or.inl rfl
  | succ n ih =>
    intro k
    unfold stopPoll
    split
    · exact Or.inr rfl
    · split
      · exact Or.inr rfl
      · exact ih (k + 1)

/-- C5 (code bug): a service stuck in `stop pending` past the 6-second
deadline makes `stop()` return 0 (success); the deadline branch's failure
code is a dead store.  The second conjunct shows the polling loop can
never produce a failure code for any status sequence or timeout. -/
theorem windows_stop_timeout_reports_success :
    windowsServiceStop true none (fun _ => "stop pending") 6 = some 0 ∧
    (∀ statusAt timeout fuel k,
      stopPoll statusAt timeout fuel k = none ∨
      stopPoll statusAt timeout fuel k = some 0) :=
  ⟨by rfl, fun statusAt timeout => stopPoll_never_fails statusAt timeout⟩

/-- C6: for a backup path ending in the loop suffix `-(n-1)`,
`get_backup_path` replaces exactly that trailing suffix with `-n`, so
consecutive backup paths differ only in the trailing loop number; and the
`rsync_data` operation renames the copy at most once, and only when the
computed new path differs from the old one and the rsync succeeded. -/
theorem get_backup_path_spec (p : String) (n : Nat) (h : 1 ≤ n) :
    get_backup_path (p ++ "-" ++ toString (n - 1)) n = p ++ "-" ++ toString n ∧
    (∀ r a b, (rsyncDataRenames r a b).length ≤ 1) ∧
    (∀ r a b x, x ∈ rsyncDataRenames r a b → x.1 ≠ x.2 ∧ r = 0) := by
  refine ⟨?_, ?_, ?_⟩
  · have hdata : (p ++ "-" ++ toString (n - 1)).data =
        p.data ++ ("-" ++ toString (n - 1)).data := by
      show (p.data ++ "-".data) ++ (toString (n - 1)).data =
        p.data ++ ("-".data ++ (toString (n - 1)).data)
      rw [List.append_assoc]
    unfold get_backup_path subAnchoredSuffix
    rw [hdata]
    rw [if_pos (List.suffix_append p.data ("-" ++ toString (n - 1)).data)]
    rw [List.length_append, Nat.add_sub_cancel, List.take_left]
    show String.mk (p.data ++ ("-".data ++ (toString n).data)) = p ++ "-" ++ toString n
    rw [← List.append_assoc]
    rfl
  · intro r a b
    unfold rsyncDataRenames
    split <;> simp
  · intro r a b x hx
    unfold rsyncDataRenames at hx
    split at hx
    · rename_i hcond
      rcases List.mem_singleton.mp hx with rfl
      exact ⟨hcond.2, hcond.1⟩
    · cases hx

/-- Concrete witness for C6: loop 2 turns `data-1` into `data-2`. -/
theorem get_backup_path_spec_witness :
    get_backup_path ("data" ++ "-" ++ toString 1) 2 = "data" ++ "-" ++ toString 2 :=
  (get_backup_path_spec "data" 2 (by decide)).1

/-- C2: with every operation before `op` succeeding and `op` failing, the
agent executes exactly the prefix up to and including `op`, in the listed
order, and returns `op`'s code; the operations after `op` are never
attempted (the result does not depend on `post`). -/
theorem remote_handler_fail_fast (env : String → Nat) (pre : List String)
    (op : String) (post : List String)
    (h1 : ∀ q ∈ pre, opResult env q = 0) (h2 : opResult env op ≠ 0) :
    remote_handler env (pre ++ op :: post) =
      Except.ok (pre ++ [op], opResult env op) := by
  have hrun : remoteHandlerRun env (pre ++ op :: post) =
      (pre ++ [op], opResult env op) := by
    induction pre with
    | nil =>
      unfold remoteHandlerRun
      simp [h2]
    | cons q rest ih =>
      have hq : opResult env q = 0 := h1 q (List.mem_cons_self q rest)
      have hrest : ∀ q ∈ rest, opResult env q = 0 :=
        fun x hx => h1 x (List.mem_cons_of_mem q hx)
      show remoteHandlerRun env (q :: (rest ++ op :: post)) = _
      unfold remoteHandlerRun
      simp [hq, ih hrest]
  unfold remote_handler
  rw [if_neg (by simp), hrun]

/-- Concrete witness for C2, the end-to-end scenario B: in the batch
`[kill_mongod, stop_mongod]` with `kill_mongod` failing with code 77,
only `kill_mongod` executes and the batch returns 77. -/
theorem remote_handler_fail_fast_witness :
    remote_handler (fun o => if o = "kill_mongod" then 77 else 0)
      ["kill_mongod", "stop_mongod"] = Except.ok (["kill_mongod"], 77) := by
  have h := remote_handler_fail_fast (fun o => if o = "kill_mongod" then 77 else 0)
    [] "kill_mongod" ["stop_mongod"] (by intro q hq; cases hq) (by decide)
  simpa [opResult, knownRemoteOperations] using h

/-- C7 counterexample: the ssh-failure exit passes through the probe's
return code, so its exit code can coincide with an ordinary failure's
exit code (here both are 1); the numeric exit code does not distinguish
the two terminal states. -/
theorem ssh_failure_exit_code_collides :
    (ssh_failure_exit 1 "ssh: connect timed out" initExitYml).exit_code =
      (local_exit 1 initExitYml).exit_code := by
  rfl

/-- C7 (amended): when the reachability probe of the freshly constructed
channel never succeeds, `verify_remote_access` terminates the run through
`ssh_failure_exit`, which records the transport-failure output in the
exit file; the resulting terminal state differs from every ordinary
failure terminal state through the recorded detail (though not
necessarily through the exit code). -/
theorem ssh_failure_terminal_state (probe : AccessProbe) (ret : Int)
    (h : probe.established = false) :
    verify_remote_access probe initExitYml =
      some (ssh_failure_exit probe.info_code probe.info_output initExitYml) ∧
    (ssh_failure_exit probe.info_code probe.info_output initExitYml).ec2_ssh_failure =
      some probe.info_output ∧
    ssh_failure_exit probe.info_code probe.info_output initExitYml ≠
      local_exit ret initExitYml := by
  refine ⟨?_, rfl, ?_⟩
  · unfold verify_remote_access
    rw [h]
    rfl
  · intro hcontra
    have : (ssh_failure_exit probe.info_code probe.info_output
        initExitYml).ec2_ssh_failure = (local_exit ret initExitYml).ec2_ssh_failure := by
      rw [hcontra]
    simp [ssh_failure_exit, local_exit, initExitYml] at this

/-- Concrete witness for C7: a probe that failed with code 255. -/
theorem ssh_failure_terminal_state_witness :
    verify_remote_access ⟨false, 255, "ssh: no route to host"⟩ initExitYml =
      some (ssh_failure_exit 255 "ssh: no route to host" initExitYml) ∧
    (ssh_failure_exit 255 "ssh: no route to host" initExitYml).ec2_ssh_failure =
      some "ssh: no route to host" ∧
    ssh_failure_exit 255 "ssh: no route to host" initExitYml ≠
      local_exit 1 initExitYml :=
  ssh_failure_terminal_state ⟨false, 255, "ssh: no route to host"⟩ 1 rfl

/-- C9 counterexample: when no feature-compatibility version target is
configured (`task_config.fcv is None`), the loop-1 start batch does not
contain the `set_fcv` operation, only `seed_docs`. -/
theorem start_batch_loop1_without_fcv :
    "set_fcv" ∉ startSecretBatch 1 none ∧ "seed_docs" ∈ startSecretBatch 1 none := by
  decide

/-- C9 (amended): the loop-1 start batch always contains `seed_docs`, and
contains `set_fcv` exactly when an FCV target is configured; every loop
after the first omits both, while `rsync_data` and `start_mongod` are in
every batch. -/
theorem start_batch_spec (fcv : Option String) (n : Nat) (h : 1 < n) :
    "seed_docs" ∈ startSecretBatch 1 fcv ∧
    ("set_fcv" ∈ startSecretBatch 1 fcv ↔ fcv.isSome) ∧
    "set_fcv" ∉ startSecretBatch n fcv ∧
    "seed_docs" ∉ startSecretBatch n fcv ∧
    "rsync_data" ∈ startSecretBatch n fcv ∧
    "start_mongod" ∈ startSecretBatch n fcv := by
  have hn : ¬ n = 1 := by omega
  refine ⟨?_, ?_, ?_, ?_, ?_, ?_⟩
  · simp [startSecretBatch]
  · cases fcv <;> simp [startSecretBatch, setFcvCmd]
  · cases fcv <;> simp [startSecretBatch, setFcvCmd, hn]
  · cases fcv <;> simp [startSecretBatch, setFcvCmd, hn]
  · simp [startSecretBatch]
  · simp [startSecretBatch]

/-- Concrete witness for C9 (amended), at loop 2 with a configured FCV
target. -/
theorem start_batch_spec_witness :
    "seed_docs" ∈ startSecretBatch 1 (some "4.4") ∧
    ("set_fcv" ∈ startSecretBatch 1 (some "4.4") ↔ (some "4.4").isSome) ∧
    "set_fcv" ∉ startSecretBatch 2 (some "4.4") ∧
    "seed_docs" ∉ startSecretBatch 2 (some "4.4") ∧
    "rsync_data" ∈ startSecretBatch 2 (some "4.4") ∧
    "start_mongod" ∈ startSecretBatch 2 (some "4.4") :=
  start_batch_spec (some "4.4") 2 (by decide)

/-- C1: iteration 1 performs no canary validation; every iteration
`n ≥ 2` performs exactly the listed step sequence, in which the canary
validation of the document written in iteration `n - 1` comes right after
the start batch and the tunnel, before collection validation, shutdown
and every later step; and the validated document is the one inserted just
before the crash of iteration `n - 1`. -/
theorem canary_validation_ordering (fcv : Option String) (ts : Nat → Nat)
    (n : Nat) (h : 2 ≤ n) :
    (∀ d, Step.validateCanary d ∉ iterationTrace fcv ts 1) ∧
    iterationTrace fcv ts n =
      [Step.startSecret (startSecretBatch n fcv), Step.setupTunnel,
       Step.validateCanary (some (ts (n - 1))),
       Step.validateCollections, Step.shutdownSecret, Step.startStandard,
       Step.startClients, Step.insertCanary (ts n), Step.crash,
       Step.killClients, Step.reconnect, Step.noopBootCheck] ∧
    Step.insertCanary (ts (n - 1)) ∈ iterationTrace fcv ts (n - 1) := by
  obtain ⟨m, rfl⟩ : ∃ m, n = m + 2 := ⟨n - 2, by omega⟩
  refine ⟨?_, ?_, ?_⟩
  · intro d
    simp [iterationTrace, iterationSteps]
  · have h1 : m + 2 - 1 = m + 1 := by omega
    have h2 : (1 : Nat) < m + 2 := by omega
    rw [iterationTrace, h1]
    show iterationSteps fcv (m + 2) (some (ts (m + 1))) (ts (m + 2)) = _
    simp [iterationSteps, h2]
  · have h1 : m + 2 - 1 = m + 1 := by omega
    rw [h1, iterationTrace]
    simp [iterationSteps]

/-- Concrete witness for C1 at iteration 2 with timestamps `ts k = k`:
the canary validated in iteration 2 is the document written in
iteration 1. -/
theorem canary_validation_ordering_witness :
    iterationTrace none (fun k => k) 2 =
      [Step.startSecret (startSecretBatch 2 none), Step.setupTunnel,
       Step.validateCanary (some 1),
       Step.validateCollections, Step.shutdownSecret, Step.startStandard,
       Step.startClients, Step.insertCanary 2, Step.crash,
       Step.killClients, Step.reconnect, Step.noopBootCheck] :=
  (canary_validation_ordering none (fun k => k) 2 (by decide)).2.1

end Powercycle
